import Mathlib

/-!
Verification of the command dispatch and HTTP response-handling layer of a
CLI client for a CDN provider's REST API (Rust sources under `src/`).

The embedding models:
* the parameter normalizer (`util.rs`: `parse_date_time_or_exit`,
  `parse_resource_ids_optional`; the path-list splitting inlined in
  `commands_jobs.rs`),
* the shared default status interpreter
  (`util.rs`: `handle_default_response_status_codes`),
* every command handler dispatched from `main.rs`
  (`commands_billing.rs`, `commands_jobs.rs`, `commands_statistics.rs`,
  `commands_storage.rs`),
* `main.rs`'s dispatch, including the `panic!` that follows the statistics
  arm and the process exit conventions.

Strings manipulated character-wise by the Rust code (date-times, comma
separated lists) are embedded as `List Char`; other strings stay `String`.
Process termination is an explicit `Term` value; each `println!`/`eprintln!`
call site is one constructor of `Msg` carrying the interpolated values.
-/

namespace Cdn77

/-- Exit code for invalid user input (`main.rs`: `EXIT_CODE_INVALID_INPUT`). -/
def EXIT_CODE_INVALID_INPUT : Int := 2

/-- Exit code for an expected API error (`main.rs`: `EXIT_CODE_API_EXPECTED_ERROR`). -/
def EXIT_CODE_API_EXPECTED_ERROR : Int := 3

/-- Exit code for an unexpected API error (`main.rs`: `EXIT_CODE_API_UNEXPECTED_ERROR`). -/
def EXIT_CODE_API_UNEXPECTED_ERROR : Int := 4

/-- How an invocation terminates: `process::exit(code)`, a normal return from
the handler (the process then returns from `main`), or a Rust `panic` carrying
its message (`expect`, or the `panic` calls in `main.rs`). -/
inductive Term where
  | exits (code : Int)
  | retNormal
  | panicked (msg : String)
deriving DecidableEq, Repr

/-- `f32` values (billing amounts) are carried opaquely as their bit patterns;
no claim computes with them. -/
abbrev F32 := Nat

/-- `serde_json::Value` payloads are carried opaquely; the statistics commands
only check that the body is well-formed JSON and pretty-print it back. -/
abbrev JsonValue := String

/-- An HTTP response: the numeric status code and the body text
(`none` models a body that cannot be read as text). -/
structure Response where
  status : Nat
  bodyText : Option String
deriving DecidableEq, Repr

/- ------------------------------------------------------------------
Parameter normalizer (`util.rs` and the splitting inlined in handlers)
------------------------------------------------------------------- -/

/-- Rust `str::split(',')` on a character list: the empty string yields one
empty segment, adjacent commas yield empty segments. -/
def splitOnComma : List Char → List (List Char)
  | [] => [[]]
  | c :: rest =>
    let r := splitOnComma rest
    if c = ',' then [] :: r
    else
      match r with
      | s :: tail => (c :: s) :: tail
      | [] => [[c]]

/-- Rust `str::trim` (restricted to the ASCII whitespace the inputs use):
drop whitespace from both ends. -/
def trimChars (s : List Char) : List Char :=
  (s.dropWhile Char.isWhitespace).reverse.dropWhile Char.isWhitespace |>.reverse

/-- Rust `str::parse::<u64>()`: an optional leading `+`, then at least one
decimal digit, value below `2 ^ 64`; anything else is an error (`none`). -/
def parseU64 (s : List Char) : Option Nat :=
  let t := match s with
    | '+' :: rest => rest
    | _ => s
  if t = [] then none
  else if t.all Char.isDigit then
    let v := t.foldl (fun a c => a * 10 + (c.toNat - 48)) 0
    if v < 2 ^ 64 then some v else none
  else none

/-- The panic message of the `expect` in `parse_resource_ids_optional`. -/
def resourceIdPanicMsg : String := "At least one resource id is malformed"

/-- Sequential parse of every segment, stopping at the first failure
(models `.map(|s| s.parse::<ResourceId>().expect(..)).collect()`). -/
def parseAllU64 : List (List Char) → Option (List Nat)
  | [] => some []
  | s :: rest =>
    match parseU64 s, parseAllU64 rest with
    | some n, some ns => some (n :: ns)
    | _, _ => none

/-- `util.rs`: `parse_resource_ids_optional`. Splits on `,`, trims each
segment, drops empty segments and parses the rest as `u64`; a parse failure
is the `expect` panic, modelled as `Except.error` with the panic message. -/
def parse_resource_ids_optional (input : Option (List Char)) :
    Except String (Option (List Nat)) :=
  match input with
  | none => .ok none
  | some r =>
    let segs := ((splitOnComma r).map trimChars).filter (· ≠ [])
    match parseAllU64 segs with
    | some ids => .ok (some ids)
    | none => .error resourceIdPanicMsg

/-- `commands_statistics.rs`: `parse_optional_location_ids`. Same splitting
and trimming, segments kept as raw strings. -/
def parse_optional_location_ids (input : Option (List Char)) :
    Option (List String) :=
  match input with
  | none => none
  | some r =>
    some ((((splitOnComma r).map trimChars).filter (· ≠ [])).map List.asString)

/-- `commands_jobs.rs`, `command_jobs_prefetch` lines 140-142: the path list
is split on `,` and empty segments are dropped; segments are NOT trimmed. -/
def prefetch_paths (s : List Char) : List (List Char) :=
  (splitOnComma s).filter (· ≠ [])

/-- Modelled from the spec: the purge command's path-list normalization,
the shared rule (split on `,`, trim, drop empty segments). -/
def purge_paths (s : List Char) : List (List Char) :=
  ((splitOnComma s).map trimChars).filter (· ≠ [])

/- ------------------------------------------------------------------
Basic splitting lemmas
------------------------------------------------------------------- -/

theorem splitOnComma_ne_nil (s : List Char) : splitOnComma s ≠ [] := by
  induction s with
  | nil => simp [splitOnComma]
  | cons c rest ih =>
    simp only [splitOnComma]
    by_cases hc : c = ','
    · simp [hc]
    · simp only [if_neg hc]
      cases h : splitOnComma rest with
      | nil => simp
      | cons a l => simp

theorem splitOnComma_no_comma (s : List Char) (h : ',' ∉ s) :
    splitOnComma s = [s] := by
  induction s with
  | nil => rfl
  | cons c rest ih =>
    simp only [List.mem_cons, not_or] at h
    have hc : c ≠ ',' := Ne.symm h.1
    simp only [splitOnComma, if_neg hc, ih h.2]

theorem splitOnComma_append_comma (s t : List Char) (h : ',' ∉ s) :
    splitOnComma (s ++ ',' :: t) = s :: splitOnComma t := by
  induction s with
  | nil => simp [splitOnComma]
  | cons c rest ih =>
    simp only [List.mem_cons, not_or] at h
    have hc : c ≠ ',' := Ne.symm h.1
    simp only [List.cons_append, splitOnComma, if_neg hc, List.append_eq,
      ih h.2]

/-- Join segments with commas: the canonical way to build a string whose
comma-split is exactly the given segment list. -/
def joinWithCommas : List (List Char) → List Char
  | [] => []
  | [s] => s
  | s :: rest => s ++ ',' :: joinWithCommas rest

theorem splitOnComma_joinWithCommas (segs : List (List Char))
    (hne : segs ≠ []) (h : ∀ s ∈ segs, ',' ∉ s) :
    splitOnComma (joinWithCommas segs) = segs := by
  induction segs with
  | nil => exact absurd rfl hne
  | cons s rest ih =>
    cases rest with
    | nil =>
      simp only [joinWithCommas]
      exact splitOnComma_no_comma s (h s (by simp))
    | cons s' rest' =>
      have hs : ',' ∉ s := h s (by simp)
      simp only [joinWithCommas, splitOnComma_append_comma _ _ hs]
      rw [ih (by simp) (fun x hx => h x (List.mem_cons_of_mem s hx))]

/- ------------------------------------------------------------------
Date-time parsing (`util.rs`: `parse_date_time_or_exit`, chrono format
string `%Y-%m-%d %H:%M`)
------------------------------------------------------------------- -/

/-- A chrono `NaiveDateTime` as produced by parsing with `%Y-%m-%d %H:%M`
(seconds are always zero and are omitted). -/
structure NaiveDateTime where
  year : Int
  month : Nat
  day : Nat
  hour : Nat
  minute : Nat
deriving DecidableEq, Repr

/-- Split a character list into its maximal leading run of decimal digits
and the remainder. -/
def takeDigits : List Char → List Char × List Char
  | [] => ([], [])
  | c :: rest =>
    if c.isDigit then
      let (ds, r) := takeDigits rest
      (c :: ds, r)
    else ([], c :: rest)

/-- Numeric value of a digit run. -/
def digitsVal (ds : List Char) : Nat :=
  ds.foldl (fun a c => a * 10 + (c.toNat - 48)) 0

/-- Parse one numeric field: at least one digit, value and remainder. -/
def parseNumField (s : List Char) : Option (Nat × List Char) :=
  match takeDigits s with
  | ([], _) => none
  | (ds, rest) => some (digitsVal ds, rest)

/-- Consume one expected literal character. -/
def expectChar (c : Char) : List Char → Option (List Char)
  | [] => none
  | x :: rest => if x = c then some rest else none

/-- Proleptic-Gregorian leap year rule (as used by chrono's `NaiveDate`). -/
def isLeapYear (y : Int) : Bool :=
  (y % 4 = 0 && y % 100 ≠ 0) || y % 400 = 0

/-- Number of days of month `m` of year `y`. -/
def daysInMonth (y : Int) (m : Nat) : Nat :=
  if m = 2 then (if isLeapYear y then 29 else 28)
  else if m = 4 ∨ m = 6 ∨ m = 9 ∨ m = 11 then 30
  else 31

/-- chrono `NaiveDateTime::parse_from_str` with format `%Y-%m-%d %H:%M`
(for non-negative years): four numeric fields joined by the literal
separators, the whole input consumed, and each field validated against
the calendar. -/
def parse_date_time (s : List Char) : Option NaiveDateTime := do
  let (y, r1) ← parseNumField s
  let r2 ← expectChar '-' r1
  let (mo, r3) ← parseNumField r2
  let r4 ← expectChar '-' r3
  let (d, r5) ← parseNumField r4
  let r6 ← expectChar ' ' r5
  let (h, r7) ← parseNumField r6
  let r8 ← expectChar ':' r7
  let (mi, r9) ← parseNumField r8
  if r9 = [] ∧ 1 ≤ mo ∧ mo ≤ 12 ∧ 1 ≤ d ∧ d ≤ daysInMonth (Int.ofNat y) mo
      ∧ h ≤ 23 ∧ mi ≤ 59 then
    some ⟨Int.ofNat y, mo, d, h, mi⟩
  else
    none

/-- The decimal digit character for `d ≤ 9`. -/
def digitChar : Nat → Char
  | 0 => '0'
  | 1 => '1'
  | 2 => '2'
  | 3 => '3'
  | 4 => '4'
  | 5 => '5'
  | 6 => '6'
  | 7 => '7'
  | 8 => '8'
  | _ => '9'

/-- Zero-padded two-digit rendering. -/
def render2 (n : Nat) : List Char := [digitChar (n / 10), digitChar (n % 10)]

/-- Zero-padded four-digit rendering. -/
def render4 (n : Nat) : List Char :=
  [digitChar (n / 1000), digitChar (n / 100 % 10), digitChar (n / 10 % 10),
   digitChar (n % 10)]

/-- The `YYYY-MM-DD hh:mm` rendering of a wall-clock minute. -/
def formatDateTime (y mo d h mi : Nat) : List Char :=
  render4 y ++ '-' :: render2 mo ++ '-' :: render2 d ++ ' ' :: render2 h
    ++ ':' :: render2 mi

theorem digitChar_isDigit {d : Nat} (h : d ≤ 9) :
    (digitChar d).isDigit = true := by
  interval_cases d <;> decide

theorem digitChar_toNat {d : Nat} (h : d ≤ 9) :
    (digitChar d).toNat = 48 + d := by
  interval_cases d <;> decide

theorem takeDigits_append {ds : List Char} (hds : ∀ c ∈ ds, c.isDigit = true)
    {c : Char} (hc : c.isDigit = false) (rest : List Char) :
    takeDigits (ds ++ c :: rest) = (ds, c :: rest) := by
  induction ds with
  | nil => simp [takeDigits, hc]
  | cons d ds ih =>
    have hd : d.isDigit = true := hds d (by simp)
    simp [List.cons_append, takeDigits, hd, List.append_eq,
      ih (fun x hx => hds x (by simp [hx]))]

theorem takeDigits_all {ds : List Char} (hds : ∀ c ∈ ds, c.isDigit = true) :
    takeDigits ds = (ds, []) := by
  induction ds with
  | nil => rfl
  | cons d ds ih =>
    have hd : d.isDigit = true := hds d (by simp)
    simp only [takeDigits, hd, if_true,
      ih (fun x hx => hds x (by simp [hx]))]

theorem render2_digits {n : Nat} (h : n ≤ 99) :
    ∀ c ∈ render2 n, c.isDigit = true := by
  intro c hc
  simp only [render2, List.mem_cons, List.not_mem_nil, or_false] at hc
  rcases hc with rfl | rfl
  · exact digitChar_isDigit (by omega)
  · exact digitChar_isDigit (by omega)

theorem render4_digits {n : Nat} (h : n ≤ 9999) :
    ∀ c ∈ render4 n, c.isDigit = true := by
  intro c hc
  simp only [render4, List.mem_cons, List.not_mem_nil, or_false] at hc
  rcases hc with rfl | rfl | rfl | rfl
  · exact digitChar_isDigit (by omega)
  · exact digitChar_isDigit (by omega)
  · exact digitChar_isDigit (by omega)
  · exact digitChar_isDigit (by omega)

theorem digitsVal_render2 {n : Nat} (h : n ≤ 99) :
    digitsVal (render2 n) = n := by
  have h1 : n / 10 ≤ 9 := by omega
  have h2 : n % 10 ≤ 9 := by omega
  simp only [digitsVal, render2, List.foldl, digitChar_toNat h1,
    digitChar_toNat h2]
  omega

theorem digitsVal_render4 {n : Nat} (h : n ≤ 9999) :
    digitsVal (render4 n) = n := by
  have h1 : n / 1000 ≤ 9 := by omega
  have h2 : n / 100 % 10 ≤ 9 := by omega
  have h3 : n / 10 % 10 ≤ 9 := by omega
  have h4 : n % 10 ≤ 9 := by omega
  simp only [digitsVal, render4, List.foldl, digitChar_toNat h1,
    digitChar_toNat h2, digitChar_toNat h3, digitChar_toNat h4]
  omega

theorem parseNumField_eq {s ds rest : List Char}
    (h : takeDigits s = (ds, rest)) (hne : ds ≠ []) :
    parseNumField s = some (digitsVal ds, rest) := by
  cases ds with
  | nil => exact absurd rfl hne
  | cons d ds' => simp [parseNumField, h]

theorem parseNumField_render2 {n : Nat} (h : n ≤ 99) {c : Char}
    (hc : c.isDigit = false) (rest : List Char) :
    parseNumField (render2 n ++ c :: rest) = some (n, c :: rest) := by
  rw [parseNumField_eq (takeDigits_append (render2_digits h) hc rest)
    (by simp [render2]), digitsVal_render2 h]

theorem parseNumField_render4 {n : Nat} (h : n ≤ 9999) {c : Char}
    (hc : c.isDigit = false) (rest : List Char) :
    parseNumField (render4 n ++ c :: rest) = some (n, c :: rest) := by
  rw [parseNumField_eq (takeDigits_append (render4_digits h) hc rest)
    (by simp [render4]), digitsVal_render4 h]

theorem parseNumField_render2_end {n : Nat} (h : n ≤ 99) :
    parseNumField (render2 n) = some (n, []) := by
  rw [parseNumField_eq (takeDigits_all (render2_digits h))
    (by simp [render2]), digitsVal_render2 h]

theorem expectChar_cons (c : Char) (rest : List Char) :
    expectChar c (c :: rest) = some rest := by
  simp [expectChar]

theorem parse_date_time_format {y mo d h mi : Nat}
    (hy2 : y ≤ 9999) (hmo1 : 1 ≤ mo) (hmo2 : mo ≤ 12)
    (hd1 : 1 ≤ d) (hd2 : d ≤ daysInMonth (Int.ofNat y) mo)
    (hh : h ≤ 23) (hmi : mi ≤ 59) :
    parse_date_time (formatDateTime y mo d h mi) =
      some ⟨Int.ofNat y, mo, d, h, mi⟩ := by
  have hdash : ('-' : Char).isDigit = false := by decide
  have hsp : (' ' : Char).isDigit = false := by decide
  have hcol : (':' : Char).isDigit = false := by decide
  have hmo99 : mo ≤ 99 := by omega
  have hd99 : d ≤ 99 := by
    have : daysInMonth (Int.ofNat y) mo ≤ 31 := by
      unfold daysInMonth
      split
      · split <;> omega
      · split <;> omega
    omega
  have hh99 : h ≤ 99 := by omega
  have hmi99 : mi ≤ 99 := by omega
  simp only [formatDateTime, List.cons_append, List.append_assoc]
  unfold parse_date_time
  simp only [parseNumField_render4 hy2 hdash, parseNumField_render2 hmo99 hdash,
    parseNumField_render2 hd99 hsp, parseNumField_render2 hh99 hcol,
    parseNumField_render2_end hmi99, expectChar_cons, Option.bind_eq_bind,
    Option.some_bind]
  rw [if_pos ⟨trivial, hmo1, hmo2, hd1, hd2, hh, hmi⟩]

theorem parse_date_time_sound {s : List Char} {dt : NaiveDateTime}
    (h : parse_date_time s = some dt) :
    1 ≤ dt.month ∧ dt.month ≤ 12 ∧ 1 ≤ dt.day
      ∧ dt.day ≤ daysInMonth dt.year dt.month ∧ dt.hour ≤ 23
      ∧ dt.minute ≤ 59 := by
  unfold parse_date_time at h
  simp only [Option.bind_eq_bind, Option.bind_eq_some] at h
  obtain ⟨⟨y, r1⟩, -, h⟩ := h
  obtain ⟨r2, -, h⟩ := h
  obtain ⟨⟨mo, r3⟩, -, h⟩ := h
  obtain ⟨r4, -, h⟩ := h
  obtain ⟨⟨d, r5⟩, -, h⟩ := h
  obtain ⟨r6, -, h⟩ := h
  obtain ⟨⟨hh, r7⟩, -, h⟩ := h
  obtain ⟨r8, -, h⟩ := h
  obtain ⟨⟨mi, r9⟩, -, h⟩ := h
  by_cases hc : r9 = [] ∧ 1 ≤ mo ∧ mo ≤ 12 ∧ 1 ≤ d
      ∧ d ≤ daysInMonth (Int.ofNat y) mo ∧ hh ≤ 23 ∧ mi ≤ 59
  · rw [if_pos hc] at h
    cases h
    exact ⟨hc.2.1, hc.2.2.1, hc.2.2.2.1, hc.2.2.2.2.1, hc.2.2.2.2.2.1,
      hc.2.2.2.2.2.2⟩
  · rw [if_neg hc] at h
    cases h

theorem parse_date_time_bad_month {y mo d h mi : Nat}
    (hy2 : y ≤ 9999) (hmo : 13 ≤ mo) (hmo99 : mo ≤ 99)
    (hd99 : d ≤ 99) (hh99 : h ≤ 99) (hmi99 : mi ≤ 99) :
    parse_date_time (formatDateTime y mo d h mi) = none := by
  have hdash : ('-' : Char).isDigit = false := by decide
  have hsp : (' ' : Char).isDigit = false := by decide
  have hcol : (':' : Char).isDigit = false := by decide
  simp only [formatDateTime, List.cons_append, List.append_assoc]
  unfold parse_date_time
  simp only [parseNumField_render4 hy2 hdash, parseNumField_render2 hmo99 hdash,
    parseNumField_render2 hd99 hsp, parseNumField_render2 hh99 hcol,
    parseNumField_render2_end hmi99, expectChar_cons, Option.bind_eq_bind,
    Option.some_bind]
  rw [if_neg]
  rintro ⟨-, -, h12, -⟩
  omega

theorem parse_date_time_bad_day {y mo d h mi : Nat}
    (hy2 : y ≤ 9999) (hd : daysInMonth (Int.ofNat y) mo < d)
    (hmo99 : mo ≤ 99) (hd99 : d ≤ 99) (hh99 : h ≤ 99) (hmi99 : mi ≤ 99) :
    parse_date_time (formatDateTime y mo d h mi) = none := by
  have hdash : ('-' : Char).isDigit = false := by decide
  have hsp : (' ' : Char).isDigit = false := by decide
  have hcol : (':' : Char).isDigit = false := by decide
  simp only [formatDateTime, List.cons_append, List.append_assoc]
  unfold parse_date_time
  simp only [parseNumField_render4 hy2 hdash, parseNumField_render2 hmo99 hdash,
    parseNumField_render2 hd99 hsp, parseNumField_render2 hh99 hcol,
    parseNumField_render2_end hmi99, expectChar_cons, Option.bind_eq_bind,
    Option.some_bind]
  rw [if_neg]
  rintro ⟨-, -, -, -, hle, -⟩
  omega

theorem parse_date_time_bad_sep {y : Nat} (hy2 : y ≤ 9999) {c : Char}
    (hdig : c.isDigit = false) (hne : c ≠ '-') (rest : List Char) :
    parse_date_time (render4 y ++ c :: rest) = none := by
  unfold parse_date_time
  simp only [parseNumField_render4 hy2 hdig, Option.bind_eq_bind,
    Option.some_bind]
  simp [expectChar, hne]

/- ------------------------------------------------------------------
Data model: selector enums and JSON response shapes
------------------------------------------------------------------- -/

/-- `commands_jobs.rs`: the `JobType` selector. -/
inductive JobType where
  | Prefetch
  | Purge
  | PurgeAll
deriving DecidableEq, Repr

/-- The request-path rendering of a job type
(`command_jobs_list`, lines 21-25). -/
def JobType.display : JobType → String
  | .Prefetch => "prefetch"
  | .Purge => "purge"
  | .PurgeAll => "purge-all"

/-- `impl FromStr for JobType`. -/
def JobType.from_str : String → Option JobType
  | "prefetch" => some .Prefetch
  | "purge" => some .Purge
  | "purge-all" => some .PurgeAll
  | _ => none

/-- `commands_statistics.rs`: the `GetStatsType` selector. -/
inductive GetStatsType where
  | Bandwidth
  | Costs
  | Headers
  | HeadersDetail
  | HitMiss
  | HitMissDetail
  | Traffic
  | TrafficDetail
deriving DecidableEq, Repr

/-- `impl Display for GetStatsType` (lines 73-87): the string used when the
value is interpolated into a request URL. Note `HeadersDetail` renders as
"headers-details". -/
def GetStatsType.display : GetStatsType → String
  | .Bandwidth => "bandwidth"
  | .Costs => "costs"
  | .Headers => "headers"
  | .HeadersDetail => "headers-details"
  | .HitMiss => "hit-miss"
  | .HitMissDetail => "hit-miss-detail"
  | .Traffic => "traffic"
  | .TrafficDetail => "traffic-detail"

/-- `impl FromStr for GetStatsType` (lines 89-105): the strings accepted from
the CLI. Note `HeadersDetail` is parsed from "headers-detail". -/
def GetStatsType.from_str : String → Option GetStatsType
  | "bandwidth" => some .Bandwidth
  | "costs" => some .Costs
  | "headers" => some .Headers
  | "headers-detail" => some .HeadersDetail
  | "hit-miss" => some .HitMiss
  | "hit-miss-detail" => some .HitMissDetail
  | "traffic" => some .Traffic
  | "traffic-detail" => some .TrafficDetail
  | _ => none

/-- `commands_billing.rs`: `GetCreditBalanceResponse`. -/
structure GetCreditBalanceResponse where
  current_credit : F32
  credit_expires_at : Int
  credit_spent_in_30_days : F32
deriving DecidableEq, Repr

/-- `commands_jobs.rs`: `ListJobDetail` (the `cdn` HashMap is carried as an
association list). -/
structure ListJobDetail where
  id : String
  resource_type : String
  cdn : List (String × Nat)
  paths_count : Nat
  state : String
  queued_at : String
  done_at : String
deriving DecidableEq, Repr

/-- `commands_jobs.rs`: `GetJobDetailsResponse`. -/
structure GetJobDetailsResponse where
  id : String
  resource_type : String
  cdn : List (String × Nat)
  paths : List String
  paths_count : Nat
  state : String
  queued_at : String
  done_at : String
deriving DecidableEq, Repr

/-- `commands_jobs.rs`: `PrefetchResponse`. -/
structure PrefetchResponse where
  id : String
  resource_type : String
  cdn : List (String × Nat)
  paths : List String
  paths_count : Nat
  state : String
  queued_at : String
deriving DecidableEq, Repr

/-- `commands_jobs.rs`: `PurgeAllResponse`. -/
structure PurgeAllResponse where
  id : String
  resource_type : String
  cdn : List (String × Nat)
  state : String
  queued_at : String
  done_at : String
deriving DecidableEq, Repr

/-- Modelled from the spec: the success shape of the purge command, whose
handler `command_jobs_purge` is dispatched from `main.rs` but is not under
`src/`. The spec gives the job record `{id, type, cdn: map, state,
queued_at, done_at}`. -/
structure PurgeResponse where
  id : String
  resource_type : String
  cdn : List (String × Nat)
  state : String
  queued_at : String
  done_at : String
deriving DecidableEq, Repr

/-- `commands_statistics.rs`: `Bandwidth95PercentileResponse`. -/
structure Bandwidth95PercentileResponse where
  percentile : Int
deriving DecidableEq, Repr

/-- `commands_storage.rs`: `StorageListEntry`. -/
structure StorageListEntry where
  id : String
  location : String
deriving DecidableEq, Repr

/-- `commands_storage.rs`: `StorageDetailResponse`. -/
structure StorageDetailResponse where
  id : String
  location : String
deriving DecidableEq, Repr

/-- `commands_jobs.rs`: `PrefetchRequest`. -/
structure PrefetchRequest where
  paths : List String
  upstream_host : Option String
deriving DecidableEq, Repr

/-- Modelled from the spec: the purge request body `{paths[]}`. -/
structure PurgeRequest where
  paths : List String
deriving DecidableEq, Repr

/-- `commands_statistics.rs`: `GetStatsRequest` (from/to are epoch seconds). -/
structure GetStatsRequest where
  start_ts : Int
  end_ts : Int
  cdn_ids : Option (List Nat)
  location_ids : Option (List String)
  aggregation : Option String
deriving DecidableEq, Repr

/-- `commands_statistics.rs`: `Bandwidth95PercentileRequest`. -/
structure Bandwidth95PercentileRequest where
  start_ts : Int
  end_ts : Int
  cdn_ids : Option (List Nat)
  location_ids : Option (List String)
deriving DecidableEq, Repr

/-- The JSON body attached to a request. -/
inductive RequestBody where
  | noBody
  | prefetchBody (r : PrefetchRequest)
  | purgeBody (r : PurgeRequest)
  | statsBody (r : GetStatsRequest)
  | bandwidthBody (r : Bandwidth95PercentileRequest)
deriving DecidableEq, Repr

/-- An HTTP request as built by a handler. -/
structure HttpRequest where
  method : String
  url : String
  body : RequestBody
deriving DecidableEq, Repr

/-- `main.rs`: `CDN77_API_BASE`. -/
def CDN77_API_BASE : String := "https://api.cdn77.com/v3"

/- ------------------------------------------------------------------
Epoch-second conversion (chrono `NaiveDateTime::timestamp`)
------------------------------------------------------------------- -/

/-- Days since 1970-01-01 of a proleptic-Gregorian civil date
(Hinnant's days-from-civil algorithm, as used by chrono). -/
def daysFromCivil (y : Int) (m d : Nat) : Int :=
  let y' : Int := if m ≤ 2 then y - 1 else y
  let era : Int := (if 0 ≤ y' then y' else y' - 399) / 400
  let yoe : Int := y' - era * 400
  let mp : Int := if 2 < m then (m : Int) - 3 else (m : Int) + 9
  let doy : Int := (153 * mp + 2) / 5 + d - 1
  let doe : Int := yoe * 365 + yoe / 4 - yoe / 100 + doy
  era * 146097 + doe - 719468

/-- chrono `NaiveDateTime::timestamp()` for our parsed values
(seconds are zero). -/
def NaiveDateTime.timestamp (dt : NaiveDateTime) : Int :=
  daysFromCivil dt.year dt.month dt.day * 86400 + dt.hour * 3600
    + dt.minute * 60

/- ------------------------------------------------------------------
Printed messages and process termination
------------------------------------------------------------------- -/

/-- Body text of a response, or the placeholder used when the body cannot be
read (`util.rs` line 38). -/
def response_text_or_placeholder (r : Response) : String :=
  r.bodyText.getD "FAILED TO READ RESPONSE, EMPTY?"

/-- Modelled from the spec: `read_body_or_return_default_error_text` is
imported by `commands_statistics.rs` from `util.rs` but its definition is
not under `src/`; the spec says the statistics 404 branches print "the error
body (or a default message)". -/
def read_body_or_return_default_error_text (r : Response) : String :=
  r.bodyText.getD "DEFAULT ERROR TEXT"

/-- One constructor per `println!` / `eprintln!` call site reachable from the
embedded handlers, carrying the interpolated values. -/
inductive Msg where
  | text (s : String)
  | default401
  | default403
  | default404
  | default405
  | default422
  | defaultUnknown (code : Nat) (body : String)
  | transportFailed (site : String)
  | deserializeFailed (site : String)
  | noPaygNorMonthlyPlan
  | billingOutput (r : GetCreditBalanceResponse)
  | listingJobs (jobType : String) (rid : Nat)
  | jobsListOutput (jobs : List ListJobDetail)
  | gettingJobDetails (jobId : String) (rid : Nat)
  | jobDetailOutput (r : GetJobDetailsResponse)
  | jobNotFound (jobId : String) (rid : Nat)
  | specifyAtLeastOnePath
  | prefetchingPaths (paths : List String) (rid : Nat)
  | prefetchOutput (r : PrefetchResponse)
  | prefetchResourceNotFound (rid : Nat)
  | purgingAllData (rid : Nat)
  | purgeAllOutput (r : PurgeAllResponse)
  | purgeAllDisabled (rid : Nat) (r : Response)
  | purgeAllResourceNotFound (rid : Nat)
  | purgeOutput (r : PurgeResponse)
  | purgeResourceNotFound (rid : Nat)
  | statsJsonOutput (v : JsonValue)
  | statsNotFound (site : String) (body : String)
  | percentileOutput (p : Int)
  | storageListOutput (xs : List StorageListEntry)
  | storageDetailOutput (r : StorageDetailResponse)
deriving DecidableEq, Repr

/-- `util.rs`: `parse_date_time_or_exit`. On failure the caller-supplied
message is printed and the process exits with the invalid-input code. -/
def parse_date_time_or_exit (input : List Char) (error_msg : String) :
    Except (List Msg × Term) NaiveDateTime :=
  match parse_date_time input with
  | some dt => .ok dt
  | none => .error ([.text error_msg], .exits EXIT_CODE_INVALID_INPUT)

/- ------------------------------------------------------------------
Default status interpreter and transport
------------------------------------------------------------------- -/

/-- `util.rs`: `handle_default_response_status_codes`, shared fallback for
codes no command handles bespokely. -/
def handle_default_response_status_codes (r : Response) : List Msg × Term :=
  if r.status = 401 then
    ([.default401], .exits EXIT_CODE_API_EXPECTED_ERROR)
  else if r.status = 403 then
    ([.default403], .exits EXIT_CODE_API_EXPECTED_ERROR)
  else if r.status = 404 then
    ([.default404], .exits EXIT_CODE_API_EXPECTED_ERROR)
  else if r.status = 405 then
    ([.default405], .exits EXIT_CODE_API_UNEXPECTED_ERROR)
  else if r.status = 422 then
    ([.default422], .exits EXIT_CODE_API_UNEXPECTED_ERROR)
  else
    ([.defaultUnknown r.status (response_text_or_placeholder r)],
      .exits EXIT_CODE_API_UNEXPECTED_ERROR)

/-- The network and the `serde` decoders, as oracles supplied to a run:
`net req = none` models a transport failure; each `dec...` field models
`response.json::<T>()` for the corresponding Rust type. -/
structure World where
  net : HttpRequest → Option Response
  decCreditBalance : Response → Option GetCreditBalanceResponse
  decListJobs : Response → Option (List ListJobDetail)
  decJobDetail : Response → Option GetJobDetailsResponse
  decPrefetch : Response → Option PrefetchResponse
  decPurge : Response → Option PurgeResponse
  decPurgeAll : Response → Option PurgeAllResponse
  decJson : Response → Option JsonValue
  decPercentile : Response → Option Bandwidth95PercentileResponse
  decStorageList : Response → Option (List StorageListEntry)
  decStorageDetail : Response → Option StorageDetailResponse

/-- What one handler invocation did: the request it sent (if any), what it
printed, and how it terminated. -/
structure HandlerRun where
  request : Option HttpRequest
  printed : List Msg
  term : Term
deriving DecidableEq, Repr

/-- `util.rs`: `send_http_request_return_response_or_exit`. -/
def send_http_request_return_response_or_exit (w : World) (req : HttpRequest) :
    Except (List Msg × Term) Response :=
  match w.net req with
  | some r => .ok r
  | none =>
    .error ([.transportFailed "Failed to get response HTTP request"],
      .exits EXIT_CODE_API_UNEXPECTED_ERROR)

/- ------------------------------------------------------------------
Command handlers
------------------------------------------------------------------- -/

/-- `commands_billing.rs`: `command_billing_get_credit_balance`. -/
def command_billing_get_credit_balance (w : World) : HandlerRun :=
  let req : HttpRequest := ⟨"GET", CDN77_API_BASE ++ "/credit-balance", .noBody⟩
  match send_http_request_return_response_or_exit w req with
  | .error (out, t) => ⟨some req, out, t⟩
  | .ok r =>
    if r.status = 200 then
      match w.decCreditBalance r with
      | some cb => ⟨some req, [.billingOutput cb], .retNormal⟩
      | none =>
        ⟨some req, [.deserializeFailed "Failed to deserialize response"],
          .exits EXIT_CODE_API_UNEXPECTED_ERROR⟩
    else if r.status = 404 then
      ⟨some req, [.noPaygNorMonthlyPlan], .retNormal⟩
    else
      let (out, t) := handle_default_response_status_codes r
      ⟨some req, out, t⟩

/-- `commands_jobs.rs`: `command_jobs_list`. -/
def command_jobs_list (rid : Nat) (jt : JobType) (w : World) : HandlerRun :=
  let pre := Msg.listingJobs jt.display rid
  let req : HttpRequest :=
    ⟨"GET", CDN77_API_BASE ++ "/cdn/" ++ toString rid ++ "/job-log/"
      ++ jt.display, .noBody⟩
  match w.net req with
  | none =>
    ⟨some req, [pre, .transportFailed "Failed to list jobs"],
      .exits EXIT_CODE_API_UNEXPECTED_ERROR⟩
  | some r =>
    if r.status = 200 then
      match w.decListJobs r with
      | some jobs => ⟨some req, [pre, .jobsListOutput jobs], .retNormal⟩
      | none =>
        ⟨some req,
          [pre, .deserializeFailed "Failed to deserialize list-jobs response"],
          .exits EXIT_CODE_API_UNEXPECTED_ERROR⟩
    else
      let (out, t) := handle_default_response_status_codes r
      ⟨some req, pre :: out, t⟩

/-- `commands_jobs.rs`: `command_jobs_detail`. -/
def command_jobs_detail (rid : Nat) (jobId : String) (w : World) :
    HandlerRun :=
  let pre := Msg.gettingJobDetails jobId rid
  let req : HttpRequest :=
    ⟨"GET", CDN77_API_BASE ++ "/cdn/" ++ toString rid ++ "/job/" ++ jobId,
      .noBody⟩
  match w.net req with
  | none =>
    ⟨some req, [pre, .transportFailed "Failed to get job_id"],
      .exits EXIT_CODE_API_UNEXPECTED_ERROR⟩
  | some r =>
    if r.status = 200 then
      match w.decJobDetail r with
      | some jd => ⟨some req, [pre, .jobDetailOutput jd], .retNormal⟩
      | none =>
        ⟨some req,
          [pre,
            .deserializeFailed "Failed to deserialize job-details response"],
          .exits EXIT_CODE_API_UNEXPECTED_ERROR⟩
    else if r.status = 404 then
      ⟨some req, [pre, .jobNotFound jobId rid],
        .exits EXIT_CODE_API_EXPECTED_ERROR⟩
    else
      let (out, t) := handle_default_response_status_codes r
      ⟨some req, pre :: out, t⟩

/-- `commands_jobs.rs`: `command_jobs_prefetch`. The path list is split on
`,` with empty segments dropped (no trimming); an empty result aborts with
the invalid-input code before any request is built. -/
def command_jobs_prefetch (rid : Nat) (paths : List Char)
    (upstream_host : Option String) (w : World) : HandlerRun :=
  let ps := prefetch_paths paths
  if ps = [] then
    ⟨none, [.specifyAtLeastOnePath], .exits EXIT_CODE_INVALID_INPUT⟩
  else
    let pstr := ps.map List.asString
    let pre := Msg.prefetchingPaths pstr rid
    let req : HttpRequest :=
      ⟨"POST", CDN77_API_BASE ++ "/cdn/" ++ toString rid ++ "/job/prefetch",
        .prefetchBody ⟨pstr, upstream_host⟩⟩
    match w.net req with
    | none =>
      ⟨some req, [pre, .transportFailed "Failed to execute purge"],
        .exits EXIT_CODE_API_UNEXPECTED_ERROR⟩
    | some r =>
      if r.status = 202 then
        match w.decPrefetch r with
        | some pr => ⟨some req, [pre, .prefetchOutput pr], .retNormal⟩
        | none =>
          ⟨some req,
            [pre,
              .deserializeFailed "Failed to deserialize prefetch response"],
            .exits EXIT_CODE_API_UNEXPECTED_ERROR⟩
      else if r.status = 404 then
        ⟨some req, [pre, .prefetchResourceNotFound rid],
          .exits EXIT_CODE_API_EXPECTED_ERROR⟩
      else
        let (out, t) := handle_default_response_status_codes r
        ⟨some req, pre :: out, t⟩

/-- Modelled from the spec: `command_jobs_purge` is dispatched from
`main.rs` but its definition is not under `src/`. Per the spec: the path
list uses the shared splitting/trimming rule (split on `,`, trim, drop
empty segments) and an empty result is a hard input error; the request is
`POST /cdn/{id}/job/purge` with the path list; `202 Accepted` routes to the
decoder; 404 is an expected API error; other codes go to the default
interpreter. -/
def command_jobs_purge (rid : Nat) (paths : List Char) (w : World) :
    HandlerRun :=
  let ps := purge_paths paths
  if ps = [] then
    ⟨none, [.specifyAtLeastOnePath], .exits EXIT_CODE_INVALID_INPUT⟩
  else
    let pstr := ps.map List.asString
    let req : HttpRequest :=
      ⟨"POST", CDN77_API_BASE ++ "/cdn/" ++ toString rid ++ "/job/purge",
        .purgeBody ⟨pstr⟩⟩
    match w.net req with
    | none =>
      ⟨some req, [.transportFailed "Failed to execute purge"],
        .exits EXIT_CODE_API_UNEXPECTED_ERROR⟩
    | some r =>
      if r.status = 202 then
        match w.decPurge r with
        | some pr => ⟨some req, [.purgeOutput pr], .retNormal⟩
        | none =>
          ⟨some req, [.deserializeFailed "Failed to deserialize purge response"],
            .exits EXIT_CODE_API_UNEXPECTED_ERROR⟩
      else if r.status = 404 then
        ⟨some req, [.purgeResourceNotFound rid],
          .exits EXIT_CODE_API_EXPECTED_ERROR⟩
      else
        let (out, t) := handle_default_response_status_codes r
        ⟨some req, out, t⟩

/-- `commands_jobs.rs`: `command_jobs_purge_all`. 403 carries the bespoke
"purging all files is disabled" meaning here. -/
def command_jobs_purge_all (rid : Nat) (w : World) : HandlerRun :=
  let pre := Msg.purgingAllData rid
  let req : HttpRequest :=
    ⟨"POST", CDN77_API_BASE ++ "/cdn/" ++ toString rid ++ "/job/purge-all",
      .noBody⟩
  match w.net req with
  | none =>
    ⟨some req, [pre, .transportFailed "Failed to get purge-all"],
      .exits EXIT_CODE_API_UNEXPECTED_ERROR⟩
  | some r =>
    if r.status = 202 then
      match w.decPurgeAll r with
      | some pr => ⟨some req, [pre, .purgeAllOutput pr], .retNormal⟩
      | none =>
        ⟨some req,
          [pre, .deserializeFailed "Failed to deserialize purge-all response"],
          .exits EXIT_CODE_API_UNEXPECTED_ERROR⟩
    else if r.status = 403 then
      ⟨some req, [pre, .purgeAllDisabled rid r],
        .exits EXIT_CODE_API_EXPECTED_ERROR⟩
    else if r.status = 404 then
      ⟨some req, [pre, .purgeAllResourceNotFound rid],
        .exits EXIT_CODE_API_EXPECTED_ERROR⟩
    else
      let (out, t) := handle_default_response_status_codes r
      ⟨some req, pre :: out, t⟩

/-- `commands_statistics.rs`: `command_stats_get_stats`. Both date bounds,
the resource-id list and the location-id list are normalized before the
request is built. -/
def command_stats_get_stats (stat_type : GetStatsType)
    (fromS toS : List Char) (resource_ids location_ids : Option (List Char))
    (aggregation : Option String) (w : World) : HandlerRun :=
  match parse_date_time_or_exit fromS
      "Start date/time is not in a correct format" with
  | .error (out, t) => ⟨none, out, t⟩
  | .ok fromDt =>
  match parse_date_time_or_exit toS
      "End date/time is not in a correct format" with
  | .error (out, t) => ⟨none, out, t⟩
  | .ok toDt =>
  match parse_resource_ids_optional resource_ids with
  | .error pmsg => ⟨none, [], .panicked pmsg⟩
  | .ok rids =>
  let lids := parse_optional_location_ids location_ids
  let req : HttpRequest :=
    ⟨"POST", CDN77_API_BASE ++ "/stats/" ++ stat_type.display,
      .statsBody ⟨fromDt.timestamp, toDt.timestamp, rids, lids, aggregation⟩⟩
  match send_http_request_return_response_or_exit w req with
  | .error (out, t) => ⟨some req, out, t⟩
  | .ok r =>
    if r.status = 200 then
      match w.decJson r with
      | some v => ⟨some req, [.statsJsonOutput v], .retNormal⟩
      | none =>
        ⟨some req, [.deserializeFailed "Failed to deserialize response"],
          .exits EXIT_CODE_API_UNEXPECTED_ERROR⟩
    else if r.status = 404 then
      ⟨some req,
        [.statsNotFound "Could not get stats for this type without grouping"
          (read_body_or_return_default_error_text r)],
        .exits EXIT_CODE_API_EXPECTED_ERROR⟩
    else
      let (out, t) := handle_default_response_status_codes r
      ⟨some req, out, t⟩

/-- `commands_statistics.rs`: `command_stats_bandwidth_95th_percentile`. -/
def command_stats_bandwidth_95th_percentile (fromS toS : List Char)
    (resource_ids location_ids : Option (List Char)) (w : World) :
    HandlerRun :=
  match parse_date_time_or_exit fromS
      "Start date/time is not in a correct format" with
  | .error (out, t) => ⟨none, out, t⟩
  | .ok fromDt =>
  match parse_date_time_or_exit toS
      "End date/time is not in a correct format" with
  | .error (out, t) => ⟨none, out, t⟩
  | .ok toDt =>
  match parse_resource_ids_optional resource_ids with
  | .error pmsg => ⟨none, [], .panicked pmsg⟩
  | .ok rids =>
  let lids := parse_optional_location_ids location_ids
  let req : HttpRequest :=
    ⟨"POST", CDN77_API_BASE ++ "/stats/bandwidth/percentile",
      .bandwidthBody ⟨fromDt.timestamp, toDt.timestamp, rids, lids⟩⟩
  match send_http_request_return_response_or_exit w req with
  | .error (out, t) => ⟨some req, out, t⟩
  | .ok r =>
    if r.status = 200 then
      match w.decPercentile r with
      | some p => ⟨some req, [.percentileOutput p.percentile], .retNormal⟩
      | none =>
        ⟨some req, [.deserializeFailed "Failed to deserialize response"],
          .exits EXIT_CODE_API_UNEXPECTED_ERROR⟩
    else if r.status = 404 then
      ⟨some req,
        [.statsNotFound "Could not get stats for this type without grouping"
          (read_body_or_return_default_error_text r)],
        .exits EXIT_CODE_API_EXPECTED_ERROR⟩
    else
      let (out, t) := handle_default_response_status_codes r
      ⟨some req, out, t⟩

/-- `commands_storage.rs`: `command_storage_list`. -/
def command_storage_list (w : World) : HandlerRun :=
  let req : HttpRequest := ⟨"GET", CDN77_API_BASE ++ "/storage-location",
    .noBody⟩
  match send_http_request_return_response_or_exit w req with
  | .error (out, t) => ⟨some req, out, t⟩
  | .ok r =>
    if r.status = 200 then
      match w.decStorageList r with
      | some xs => ⟨some req, [.storageListOutput xs], .retNormal⟩
      | none =>
        ⟨some req, [.deserializeFailed "Failed to deserialize response"],
          .exits EXIT_CODE_API_UNEXPECTED_ERROR⟩
    else if r.status = 404 then
      ⟨some req, [.noPaygNorMonthlyPlan], .retNormal⟩
    else
      let (out, t) := handle_default_response_status_codes r
      ⟨some req, out, t⟩

/-- `commands_storage.rs`: `command_storage_detail`. -/
def command_storage_detail (storage_id : String) (w : World) : HandlerRun :=
  let req : HttpRequest :=
    ⟨"GET", CDN77_API_BASE ++ "/storage-location/" ++ storage_id, .noBody⟩
  match send_http_request_return_response_or_exit w req with
  | .error (out, t) => ⟨some req, out, t⟩
  | .ok r =>
    if r.status = 200 then
      match w.decStorageDetail r with
      | some sd => ⟨some req, [.storageDetailOutput sd], .retNormal⟩
      | none =>
        ⟨some req, [.deserializeFailed "Failed to deserialize response"],
          .exits EXIT_CODE_API_UNEXPECTED_ERROR⟩
    else if r.status = 404 then
      ⟨some req, [.noPaygNorMonthlyPlan], .retNormal⟩
    else
      let (out, t) := handle_default_response_status_codes r
      ⟨some req, out, t⟩

/- ------------------------------------------------------------------
`main.rs`: dispatch and process exit
------------------------------------------------------------------- -/

/-- The commands `main.rs` actually dispatches to a handler. -/
inductive Command where
  | billingCreditBalance
  | jobsList (rid : Nat) (jt : JobType)
  | jobsDetail (rid : Nat) (jobId : String)
  | jobsPrefetch (rid : Nat) (paths : List Char)
      (upstream_host : Option String)
  | jobsPurge (rid : Nat) (paths : List Char)
  | jobsPurgeAll (rid : Nat)
  | statsGet (t : GetStatsType) (fromS toS : List Char)
      (rids lids : Option (List Char)) (agg : Option String)
  | statsBandwidth95 (fromS toS : List Char)
      (rids lids : Option (List Char))
  | storageList
  | storageDetail (sid : String)

/-- Whether the command is dispatched inside the `RootCommands::Statistics`
arm of `main.rs`. -/
def Command.isStatistics : Command → Bool
  | .statsGet .. => true
  | .statsBandwidth95 .. => true
  | _ => false

/-- The handler invocation performed by `main.rs` for a command. -/
def dispatch (c : Command) (w : World) : HandlerRun :=
  match c with
  | .billingCreditBalance => command_billing_get_credit_balance w
  | .jobsList rid jt => command_jobs_list rid jt w
  | .jobsDetail rid jobId => command_jobs_detail rid jobId w
  | .jobsPrefetch rid paths uh => command_jobs_prefetch rid paths uh w
  | .jobsPurge rid paths => command_jobs_purge rid paths w
  | .jobsPurgeAll rid => command_jobs_purge_all rid w
  | .statsGet t fromS toS rids lids agg =>
    command_stats_get_stats t fromS toS rids lids agg w
  | .statsBandwidth95 fromS toS rids lids =>
    command_stats_bandwidth_95th_percentile fromS toS rids lids w
  | .storageList => command_storage_list w
  | .storageDetail sid => command_storage_detail sid w

/-- The message of the `panic` that ends the `RootCommands::Statistics` arm
of `main.rs` (line 248) when the statistics handler returns normally. -/
def statisticsPanicMsg : String := "Statistic isn't implemented yet!"

/-- The whole process for one invocation: run the dispatched handler; if it
returns normally, `main` falls through — to a `panic` for the statistics
arm, and to a normal return (process exit code 0) for every other arm. -/
def main_run (c : Command) (w : World) : HandlerRun :=
  let run := dispatch c w
  match run.term with
  | .retNormal =>
    if c.isStatistics then { run with term := .panicked statisticsPanicMsg }
    else { run with term := .exits 0 }
  | _ => run

/- ------------------------------------------------------------------
Concrete worlds and inputs used by witnesses and counterexamples
------------------------------------------------------------------- -/

/-- A world where the network fails and every decoder rejects. -/
def w0 : World where
  net := fun _ => none
  decCreditBalance := fun _ => none
  decListJobs := fun _ => none
  decJobDetail := fun _ => none
  decPrefetch := fun _ => none
  decPurge := fun _ => none
  decPurgeAll := fun _ => none
  decJson := fun _ => none
  decPercentile := fun _ => none
  decStorageList := fun _ => none
  decStorageDetail := fun _ => none

/-- A world answering every request with the given response
(decoders still reject). -/
def respondWith (r : Response) : World :=
  { w0 with net := fun _ => some r }

/-- A concrete 404 response. -/
def r404 : Response := ⟨404, some "BODY404"⟩

/-- A concrete valid start date-time string. -/
def dFrom : List Char := "2023-01-01 00:00".toList

/-- A concrete valid end date-time string. -/
def dTo : List Char := "2023-01-02 12:30".toList

/- ------------------------------------------------------------------
Claim C1
------------------------------------------------------------------- -/

/-- C1: the shared default status interpreter maps 401 to the
credential-check message with the expected-error exit 3, 403 to the
credentials/args-check message with exit 3, 404 to the validate-your-args
message with exit 3, 405 to the outdated-client message with the
unexpected-error exit 4, 422 to the check-for-update message with exit 4,
and any other code to printing the full body text (or a placeholder when
the body is unreadable) with exit 4. -/
theorem c1_default_status_interpreter (r : Response) :
    (r.status = 401 → handle_default_response_status_codes r =
      ([.default401], .exits EXIT_CODE_API_EXPECTED_ERROR))
    ∧ (r.status = 403 → handle_default_response_status_codes r =
      ([.default403], .exits EXIT_CODE_API_EXPECTED_ERROR))
    ∧ (r.status = 404 → handle_default_response_status_codes r =
      ([.default404], .exits EXIT_CODE_API_EXPECTED_ERROR))
    ∧ (r.status = 405 → handle_default_response_status_codes r =
      ([.default405], .exits EXIT_CODE_API_UNEXPECTED_ERROR))
    ∧ (r.status = 422 → handle_default_response_status_codes r =
      ([.default422], .exits EXIT_CODE_API_UNEXPECTED_ERROR))
    ∧ (r.status ∉ ([401, 403, 404, 405, 422] : List Nat) →
      handle_default_response_status_codes r =
        ([.defaultUnknown r.status (response_text_or_placeholder r)],
          .exits EXIT_CODE_API_UNEXPECTED_ERROR)) := by
  refine ⟨?_, ?_, ?_, ?_, ?_, ?_⟩ <;> intro h
  · simp [handle_default_response_status_codes, h]
  · simp [handle_default_response_status_codes, h]
  · simp [handle_default_response_status_codes, h]
  · simp [handle_default_response_status_codes, h]
  · simp [handle_default_response_status_codes, h]
  · simp only [List.mem_cons, List.not_mem_nil, or_false, not_or] at h
    obtain ⟨h1, h2, h3, h4, h5⟩ := h
    simp [handle_default_response_status_codes, h1, h2, h3, h4, h5]

/-- Witness for C1: the default interpreter evaluated at a 401 response and
at an unknown 500 response with readable body. -/
theorem c1_witness :
    handle_default_response_status_codes ⟨401, none⟩ =
      ([.default401], .exits EXIT_CODE_API_EXPECTED_ERROR)
    ∧ handle_default_response_status_codes ⟨500, some "oops"⟩ =
      ([.defaultUnknown 500 "oops"], .exits EXIT_CODE_API_UNEXPECTED_ERROR) := by
  exact ⟨(c1_default_status_interpreter ⟨401, none⟩).1 rfl,
    (c1_default_status_interpreter ⟨500, some "oops"⟩).2.2.2.2.2 (by decide)⟩

/- ------------------------------------------------------------------
Claim C2
------------------------------------------------------------------- -/

/-- C2: a 403 response to purge-all takes the bespoke branch: the
"purging all files is disabled" message with the expected-error exit 3,
not the default 403 credentials message. -/
theorem c2_purge_all_403_bespoke (rid : Nat) (w : World) (r : Response)
    (hnet : w.net = fun _ => some r) (h403 : r.status = 403) :
    (command_jobs_purge_all rid w).term = .exits EXIT_CODE_API_EXPECTED_ERROR
    ∧ (command_jobs_purge_all rid w).printed =
      [.purgingAllData rid, .purgeAllDisabled rid r]
    ∧ Msg.default403 ∉ (command_jobs_purge_all rid w).printed := by
  simp [command_jobs_purge_all, hnet, h403]

/-- Witness for C2: purge-all against a concrete 403 response. -/
theorem c2_witness :
    (command_jobs_purge_all 7 (respondWith ⟨403, some "no"⟩)).term =
      .exits EXIT_CODE_API_EXPECTED_ERROR
    ∧ (command_jobs_purge_all 7 (respondWith ⟨403, some "no"⟩)).printed =
      [.purgingAllData 7, .purgeAllDisabled 7 ⟨403, some "no"⟩]
    ∧ Msg.default403 ∉
      (command_jobs_purge_all 7 (respondWith ⟨403, some "no"⟩)).printed :=
  c2_purge_all_403_bespoke 7 (respondWith ⟨403, some "no"⟩) ⟨403, some "no"⟩
    rfl rfl

/- ------------------------------------------------------------------
Claim C10
------------------------------------------------------------------- -/

/-- C10: for prefetch and purge-all only 202 Accepted routes to the response
decoder as success; a 200 OK response falls through to the default
interpreter's unknown-code branch, which prints the raw body and exits with
the unexpected-error code 4. -/
theorem c10_only_202_is_success (rid : Nat) (paths : List Char)
    (uh : Option String) (w : World) (r : Response)
    (hnet : w.net = fun _ => some r)
    (hp : prefetch_paths paths ≠ []) :
    (r.status = 200 →
      (command_jobs_prefetch rid paths uh w).printed =
        [.prefetchingPaths ((prefetch_paths paths).map List.asString) rid,
          .defaultUnknown 200 (response_text_or_placeholder r)]
      ∧ (command_jobs_prefetch rid paths uh w).term =
        .exits EXIT_CODE_API_UNEXPECTED_ERROR)
    ∧ (r.status = 200 →
      (command_jobs_purge_all rid w).printed =
        [.purgingAllData rid,
          .defaultUnknown 200 (response_text_or_placeholder r)]
      ∧ (command_jobs_purge_all rid w).term =
        .exits EXIT_CODE_API_UNEXPECTED_ERROR)
    ∧ (r.status = 202 → ∀ pr, w.decPrefetch r = some pr →
      (command_jobs_prefetch rid paths uh w).printed =
        [.prefetchingPaths ((prefetch_paths paths).map List.asString) rid,
          .prefetchOutput pr]
      ∧ (command_jobs_prefetch rid paths uh w).term = .retNormal)
    ∧ (r.status = 202 → ∀ pr, w.decPurgeAll r = some pr →
      (command_jobs_purge_all rid w).printed =
        [.purgingAllData rid, .purgeAllOutput pr]
      ∧ (command_jobs_purge_all rid w).term = .retNormal) := by
  refine ⟨?_, ?_, ?_, ?_⟩
  · intro h200
    simp [command_jobs_prefetch, if_neg hp, hnet, h200,
      handle_default_response_status_codes]
  · intro h200
    simp [command_jobs_purge_all, hnet, h200,
      handle_default_response_status_codes]
  · intro h202 pr hdec
    simp [command_jobs_prefetch, if_neg hp, hnet, h202, hdec]
  · intro h202 pr hdec
    simp [command_jobs_purge_all, hnet, h202, hdec]

/-- Witness for C10: a 200 OK answer to prefetch falls to the unknown-code
branch of the default interpreter. -/
theorem c10_witness :
    (command_jobs_prefetch 3 ['p'] none (respondWith ⟨200, some "raw"⟩)).printed
      = [.prefetchingPaths ["p"] 3, .defaultUnknown 200 "raw"]
    ∧ (command_jobs_prefetch 3 ['p'] none
        (respondWith ⟨200, some "raw"⟩)).term =
      .exits EXIT_CODE_API_UNEXPECTED_ERROR := by
  have h := (c10_only_202_is_success 3 ['p'] none
    (respondWith ⟨200, some "raw"⟩) ⟨200, some "raw"⟩ rfl (by decide)).1 rfl
  exact h

/- ------------------------------------------------------------------
Claim C3 (code bug: the statistics arm of main panics after success)
------------------------------------------------------------------- -/

/-- A world answering with 200 OK and a body that decodes as valid JSON. -/
def wJson200 : World := { w0 with
  net := fun _ => some ⟨200, some "42"⟩
  decJson := fun _ => some "42" }

/-- The same 200 OK world with a decodable credit-balance body. -/
def wBilling200 : World := { wJson200 with
  decCreditBalance := fun _ => some ⟨1, 2, 3⟩ }

/-- C3 (code bug): a statistics invocation whose response has the success
status and decodes as valid JSON prints its output and then hits the
`panic` at the end of the `RootCommands::Statistics` arm of `main.rs`
instead of exiting with code 0; for the other command groups a successful
handler return does exit 0 (billing shown alongside for contrast). -/
theorem c3_statistics_success_panics :
    (main_run (.statsGet .Bandwidth dFrom dTo none none none)
        wJson200).printed = [.statsJsonOutput "42"]
    ∧ (main_run (.statsGet .Bandwidth dFrom dTo none none none)
        wJson200).term = .panicked statisticsPanicMsg
    ∧ (main_run (.statsGet .Bandwidth dFrom dTo none none none)
        wJson200).term ≠ .exits 0
    ∧ (main_run .billingCreditBalance wBilling200).term = .exits 0 := by
  refine ⟨?_, ?_, ?_, ?_⟩ <;> decide

/- ------------------------------------------------------------------
Claim C4
------------------------------------------------------------------- -/

/-- C4: on a 404 response the billing credit-balance and storage
list/detail commands print the "plan not active" informational message and
the process exits 0, while the job commands and the stats commands print an
error (the response body or a default message) and exit with the
expected-error code 3. -/
theorem c4_404_per_command (w : World) (r : Response)
    (hnet : w.net = fun _ => some r) (h404 : r.status = 404)
    (sid jobId : String) (rid : Nat) (jt : JobType) (t : GetStatsType) :
    (main_run .billingCreditBalance w).term = .exits 0
    ∧ (main_run .billingCreditBalance w).printed = [.noPaygNorMonthlyPlan]
    ∧ (main_run .storageList w).term = .exits 0
    ∧ (main_run .storageList w).printed = [.noPaygNorMonthlyPlan]
    ∧ (main_run (.storageDetail sid) w).term = .exits 0
    ∧ (main_run (.storageDetail sid) w).printed = [.noPaygNorMonthlyPlan]
    ∧ (main_run (.jobsDetail rid jobId) w).term =
      .exits EXIT_CODE_API_EXPECTED_ERROR
    ∧ Msg.jobNotFound jobId rid ∈ (main_run (.jobsDetail rid jobId) w).printed
    ∧ (main_run (.jobsList rid jt) w).term =
      .exits EXIT_CODE_API_EXPECTED_ERROR
    ∧ Msg.default404 ∈ (main_run (.jobsList rid jt) w).printed
    ∧ (main_run (.jobsPrefetch rid ['p'] none) w).term =
      .exits EXIT_CODE_API_EXPECTED_ERROR
    ∧ Msg.prefetchResourceNotFound rid ∈
      (main_run (.jobsPrefetch rid ['p'] none) w).printed
    ∧ (main_run (.jobsPurge rid ['p']) w).term =
      .exits EXIT_CODE_API_EXPECTED_ERROR
    ∧ Msg.purgeResourceNotFound rid ∈
      (main_run (.jobsPurge rid ['p']) w).printed
    ∧ (main_run (.jobsPurgeAll rid) w).term =
      .exits EXIT_CODE_API_EXPECTED_ERROR
    ∧ Msg.purgeAllResourceNotFound rid ∈
      (main_run (.jobsPurgeAll rid) w).printed
    ∧ (main_run (.statsGet t dFrom dTo none none none) w).term =
      .exits EXIT_CODE_API_EXPECTED_ERROR
    ∧ Msg.statsNotFound "Could not get stats for this type without grouping"
        (read_body_or_return_default_error_text r) ∈
      (main_run (.statsGet t dFrom dTo none none none) w).printed
    ∧ (main_run (.statsBandwidth95 dFrom dTo none none) w).term =
      .exits EXIT_CODE_API_EXPECTED_ERROR
    ∧ Msg.statsNotFound "Could not get stats for this type without grouping"
        (read_body_or_return_default_error_text r) ∈
      (main_run (.statsBandwidth95 dFrom dTo none none) w).printed := by
  have hf : parse_date_time dFrom = some ⟨2023, 1, 1, 0, 0⟩ := by decide
  have ht : parse_date_time dTo = some ⟨2023, 1, 2, 12, 30⟩ := by decide
  refine ⟨?_, ?_, ?_, ?_, ?_, ?_, ?_, ?_, ?_, ?_, ?_, ?_, ?_, ?_, ?_, ?_,
    ?_, ?_, ?_, ?_⟩
  · simp [main_run, dispatch, command_billing_get_credit_balance,
      send_http_request_return_response_or_exit, hnet, h404,
      Command.isStatistics]
  · simp [main_run, dispatch, command_billing_get_credit_balance,
      send_http_request_return_response_or_exit, hnet, h404,
      Command.isStatistics]
  · simp [main_run, dispatch, command_storage_list,
      send_http_request_return_response_or_exit, hnet, h404,
      Command.isStatistics]
  · simp [main_run, dispatch, command_storage_list,
      send_http_request_return_response_or_exit, hnet, h404,
      Command.isStatistics]
  · simp [main_run, dispatch, command_storage_detail,
      send_http_request_return_response_or_exit, hnet, h404,
      Command.isStatistics]
  · simp [main_run, dispatch, command_storage_detail,
      send_http_request_return_response_or_exit, hnet, h404,
      Command.isStatistics]
  · simp [main_run, dispatch, command_jobs_detail, hnet, h404]
  · simp [main_run, dispatch, command_jobs_detail, hnet, h404]
  · simp [main_run, dispatch, command_jobs_list, hnet, h404,
      handle_default_response_status_codes]
  · simp [main_run, dispatch, command_jobs_list, hnet, h404,
      handle_default_response_status_codes]
  · simp [main_run, dispatch, command_jobs_prefetch, prefetch_paths,
      splitOnComma, hnet, h404]
  · simp [main_run, dispatch, command_jobs_prefetch, prefetch_paths,
      splitOnComma, hnet, h404]
  · have hpp : purge_paths ['p'] = [['p']] := by decide
    simp [main_run, dispatch, command_jobs_purge, hpp, hnet, h404]
  · have hpp : purge_paths ['p'] = [['p']] := by decide
    simp [main_run, dispatch, command_jobs_purge, hpp, hnet, h404]
  · simp [main_run, dispatch, command_jobs_purge_all, hnet, h404]
  · simp [main_run, dispatch, command_jobs_purge_all, hnet, h404]
  · simp [main_run, dispatch, command_stats_get_stats,
      parse_date_time_or_exit, hf, ht, parse_resource_ids_optional,
      parse_optional_location_ids, send_http_request_return_response_or_exit,
      hnet, h404]
  · simp [main_run, dispatch, command_stats_get_stats,
      parse_date_time_or_exit, hf, ht, parse_resource_ids_optional,
      parse_optional_location_ids, send_http_request_return_response_or_exit,
      hnet, h404]
  · simp [main_run, dispatch, command_stats_bandwidth_95th_percentile,
      parse_date_time_or_exit, hf, ht, parse_resource_ids_optional,
      parse_optional_location_ids, send_http_request_return_response_or_exit,
      hnet, h404]
  · simp [main_run, dispatch, command_stats_bandwidth_95th_percentile,
      parse_date_time_or_exit, hf, ht, parse_resource_ids_optional,
      parse_optional_location_ids, send_http_request_return_response_or_exit,
      hnet, h404]

/-- Witness for C4: the 404 routing evaluated against a concrete 404
response for a billing command (exit 0) and a job command (exit 3). -/
theorem c4_witness :
    (main_run .billingCreditBalance (respondWith r404)).term = .exits 0
    ∧ (main_run (.jobsDetail 5 "j1") (respondWith r404)).term =
      .exits EXIT_CODE_API_EXPECTED_ERROR := by
  have h := c4_404_per_command (respondWith r404) r404 rfl rfl "s1" "j1" 5
    .Prefetch .Bandwidth
  obtain ⟨h1, -, -, -, -, -, h7, -⟩ := h
  exact ⟨h1, h7⟩

/- ------------------------------------------------------------------
Claim C5 (corrected: unparseable resource IDs panic, they do not exit 2)
------------------------------------------------------------------- -/

/-- A resource-ID list whose only segment is not numeric. -/
def badIds : Option (List Char) := some ['x']

/-- Counterexample to C5 as stated: a stats invocation with an unparseable
numeric resource ID terminates by the `expect` panic of
`parse_resource_ids_optional` (with no request issued), not with the
invalid-input exit code 2. -/
theorem c5_counterexample :
    (command_stats_get_stats .Bandwidth dFrom dTo badIds none none w0).term =
      .panicked resourceIdPanicMsg
    ∧ (command_stats_get_stats .Bandwidth dFrom dTo badIds none none
        w0).term ≠ .exits EXIT_CODE_INVALID_INPUT
    ∧ (command_stats_get_stats .Bandwidth dFrom dTo badIds none none
        w0).request = none := by
  refine ⟨?_, ?_, ?_⟩ <;> decide

/-- C5 (amended): every parameter-validation failure terminates the process
before any HTTP request is issued; a malformed from/to date-time string and
an empty path list exit with the invalid-input code 2, while an unparseable
numeric ID in a resource-ID list aborts through a panic (expectation
failure), not through the invalid-input exit code. -/
theorem c5_validation_before_network (t : GetStatsType)
    (fromS toS paths : List Char) (rids lids : Option (List Char))
    (agg upstream : Option String) (rid : Nat) (w : World) :
    (parse_date_time fromS = none →
      command_stats_get_stats t fromS toS rids lids agg w =
        ⟨none, [.text "Start date/time is not in a correct format"],
          .exits EXIT_CODE_INVALID_INPUT⟩)
    ∧ (∀ dt, parse_date_time fromS = some dt → parse_date_time toS = none →
      command_stats_get_stats t fromS toS rids lids agg w =
        ⟨none, [.text "End date/time is not in a correct format"],
          .exits EXIT_CODE_INVALID_INPUT⟩)
    ∧ (∀ dt dt' m, parse_date_time fromS = some dt →
      parse_date_time toS = some dt' →
      parse_resource_ids_optional rids = .error m →
      command_stats_get_stats t fromS toS rids lids agg w =
        ⟨none, [], .panicked m⟩)
    ∧ (parse_date_time fromS = none →
      command_stats_bandwidth_95th_percentile fromS toS rids lids w =
        ⟨none, [.text "Start date/time is not in a correct format"],
          .exits EXIT_CODE_INVALID_INPUT⟩)
    ∧ (∀ dt, parse_date_time fromS = some dt → parse_date_time toS = none →
      command_stats_bandwidth_95th_percentile fromS toS rids lids w =
        ⟨none, [.text "End date/time is not in a correct format"],
          .exits EXIT_CODE_INVALID_INPUT⟩)
    ∧ (∀ dt dt' m, parse_date_time fromS = some dt →
      parse_date_time toS = some dt' →
      parse_resource_ids_optional rids = .error m →
      command_stats_bandwidth_95th_percentile fromS toS rids lids w =
        ⟨none, [], .panicked m⟩)
    ∧ (prefetch_paths paths = [] →
      command_jobs_prefetch rid paths upstream w =
        ⟨none, [.specifyAtLeastOnePath], .exits EXIT_CODE_INVALID_INPUT⟩)
    ∧ (purge_paths paths = [] →
      command_jobs_purge rid paths w =
        ⟨none, [.specifyAtLeastOnePath], .exits EXIT_CODE_INVALID_INPUT⟩) := by
  refine ⟨?_, ?_, ?_, ?_, ?_, ?_, ?_, ?_⟩
  · intro hpf
    simp [command_stats_get_stats, parse_date_time_or_exit, hpf]
  · intro dt hpf hpt
    simp [command_stats_get_stats, parse_date_time_or_exit, hpf, hpt]
  · intro dt dt' m hpf hpt hr
    simp [command_stats_get_stats, parse_date_time_or_exit, hpf, hpt, hr]
  · intro hpf
    simp [command_stats_bandwidth_95th_percentile, parse_date_time_or_exit,
      hpf]
  · intro dt hpf hpt
    simp [command_stats_bandwidth_95th_percentile, parse_date_time_or_exit,
      hpf, hpt]
  · intro dt dt' m hpf hpt hr
    simp [command_stats_bandwidth_95th_percentile, parse_date_time_or_exit,
      hpf, hpt, hr]
  · intro hp
    simp [command_jobs_prefetch, hp]
  · intro hp
    simp [command_jobs_purge, hp]

/-- Witness for C5 (amended): a malformed start date aborts a stats command
with exit 2 before any request, and an empty prefetch path list aborts with
exit 2 before any request. -/
theorem c5_witness :
    command_stats_get_stats .Bandwidth ['x'] dTo none none none w0 =
      ⟨none, [.text "Start date/time is not in a correct format"],
        .exits EXIT_CODE_INVALID_INPUT⟩
    ∧ command_jobs_prefetch 1 [] none w0 =
      ⟨none, [.specifyAtLeastOnePath], .exits EXIT_CODE_INVALID_INPUT⟩ := by
  have h := c5_validation_before_network .Bandwidth ['x'] dTo [] none none
    none none 1 w0
  exact ⟨h.1 (by decide), h.2.2.2.2.2.2.1 (by decide)⟩

/- ------------------------------------------------------------------
Claim C6 (corrected: prefetch does not trim path segments)
------------------------------------------------------------------- -/

theorem mem_of_mem_splitOnComma {s seg : List Char}
    (h : seg ∈ splitOnComma s) : ∀ c ∈ seg, c ∈ s := by
  induction s generalizing seg with
  | nil =>
    simp only [splitOnComma, List.mem_singleton] at h
    subst h
    simp
  | cons a rest ih =>
    simp only [splitOnComma] at h
    by_cases ha : a = ','
    · rw [if_pos ha] at h
      rcases List.mem_cons.mp h with rfl | hmem
      · simp
      · intro c hc
        exact List.mem_cons_of_mem a (ih hmem c hc)
    · rw [if_neg ha] at h
      obtain ⟨s0, tail, hr⟩ : ∃ s0 tail, splitOnComma rest = s0 :: tail := by
        cases hsr : splitOnComma rest with
        | nil => exact absurd hsr (splitOnComma_ne_nil rest)
        | cons x xs => exact ⟨x, xs, rfl⟩
      rw [hr] at h
      rcases List.mem_cons.mp h with rfl | hmem
      · intro c hc
        rcases List.mem_cons.mp hc with rfl | hc0
        · simp
        · exact List.mem_cons_of_mem a
            (ih (by rw [hr]; exact List.mem_cons_self s0 tail) c hc0)
      · intro c hc
        exact List.mem_cons_of_mem a
          (ih (by rw [hr]; exact List.mem_cons_of_mem s0 hmem) c hc)

theorem comma_not_mem_splitOnComma {s seg : List Char}
    (h : seg ∈ splitOnComma s) : ',' ∉ seg := by
  induction s generalizing seg with
  | nil =>
    simp only [splitOnComma, List.mem_singleton] at h
    subst h
    simp
  | cons a rest ih =>
    simp only [splitOnComma] at h
    by_cases ha : a = ','
    · rw [if_pos ha] at h
      rcases List.mem_cons.mp h with rfl | hmem
      · simp
      · exact ih hmem
    · rw [if_neg ha] at h
      obtain ⟨s0, tail, hr⟩ : ∃ s0 tail, splitOnComma rest = s0 :: tail := by
        cases hsr : splitOnComma rest with
        | nil => exact absurd hsr (splitOnComma_ne_nil rest)
        | cons x xs => exact ⟨x, xs, rfl⟩
      rw [hr] at h
      rcases List.mem_cons.mp h with rfl | hmem
      · intro hc
        rcases List.mem_cons.mp hc with hac | hc0
        · exact ha hac.symm
        · exact ih (by rw [hr]; exact List.mem_cons_self s0 tail) hc0
      · exact ih (by rw [hr]; exact List.mem_cons_of_mem s0 hmem)

theorem trimChars_of_all_whitespace {s : List Char}
    (h : ∀ c ∈ s, c.isWhitespace = true) : trimChars s = [] := by
  unfold trimChars
  rw [List.dropWhile_eq_nil_iff.mpr h]
  rfl

theorem prefetch_paths_all_commas {s : List Char}
    (h : ∀ c ∈ s, c = ',') : prefetch_paths s = [] := by
  unfold prefetch_paths
  rw [List.filter_eq_nil_iff]
  intro seg hseg
  suffices hs : seg = [] by simp [hs]
  rcases hc : seg with _ | ⟨c, cs⟩
  · rfl
  · exfalso
    have hmem : c ∈ seg := by rw [hc]; simp
    have := h c (mem_of_mem_splitOnComma hseg c hmem)
    subst this
    exact comma_not_mem_splitOnComma hseg hmem

theorem purge_paths_commas_whitespace {s : List Char}
    (h : ∀ c ∈ s, c = ',' ∨ c.isWhitespace = true) : purge_paths s = [] := by
  unfold purge_paths
  rw [List.filter_eq_nil_iff]
  intro x hx
  simp only [List.mem_map] at hx
  obtain ⟨seg, hseg, rfl⟩ := hx
  suffices hs : trimChars seg = [] by simp [hs]
  refine trimChars_of_all_whitespace ?_
  intro c hc
  rcases h c (mem_of_mem_splitOnComma hseg c hc) with rfl | hws
  · exact absurd hc (comma_not_mem_splitOnComma hseg)
  · exact hws

theorem prefetch_paths_single {s : List Char} (h1 : s ≠ [])
    (h2 : ',' ∉ s) : prefetch_paths s = [s] := by
  unfold prefetch_paths
  rw [splitOnComma_no_comma s h2]
  simp [h1]

theorem purge_paths_single {s : List Char} (h2 : ',' ∉ s)
    (h3 : trimChars s ≠ []) : purge_paths s = [trimChars s] := by
  unfold purge_paths
  rw [splitOnComma_no_comma s h2]
  simp [h3]

/-- Counterexample to C6 as stated: the whitespace-only prefetch path
argument " " is NOT rejected — the handler sends a request (here answered
by a transport failure, so the run exits 4, not with the invalid-input
code 2). -/
theorem c6_counterexample :
    (command_jobs_prefetch 5 [' '] none w0).request.isSome = true
    ∧ (command_jobs_prefetch 5 [' '] none w0).term ≠
      .exits EXIT_CODE_INVALID_INPUT
    ∧ prefetch_paths [' '] = [[' ']] := by
  refine ⟨?_, ?_, ?_⟩ <;> decide

/-- C6 (amended): a prefetch path argument that is empty or consists only
of commas is rejected before any network call with the invalid-input exit
code 2; the prefetch splitting rule is split on `,` and drop empty segments
with NO trimming, so a whitespace-only segment counts as a path, and a
single comma-free nonempty path yields a one-element list. The purge
handler (modelled from the spec, its code not being under `src/`) trims
segments, rejects comma/whitespace-only input with exit 2, and yields a
one-element trimmed list for a single path. -/
theorem c6_path_list_normalization (rid : Nat) (uh : Option String)
    (w : World) (s : List Char) :
    ((∀ c ∈ s, c = ',') →
      command_jobs_prefetch rid s uh w =
        ⟨none, [.specifyAtLeastOnePath], .exits EXIT_CODE_INVALID_INPUT⟩)
    ∧ (s ≠ [] → ',' ∉ s → prefetch_paths s = [s])
    ∧ prefetch_paths [' '] = [[' ']]
    ∧ ((∀ c ∈ s, c = ',' ∨ c.isWhitespace = true) →
      command_jobs_purge rid s w =
        ⟨none, [.specifyAtLeastOnePath], .exits EXIT_CODE_INVALID_INPUT⟩)
    ∧ (',' ∉ s → trimChars s ≠ [] → purge_paths s = [trimChars s]) := by
  refine ⟨?_, ?_, by decide, ?_, ?_⟩
  · intro h
    simp [command_jobs_prefetch, prefetch_paths_all_commas h]
  · exact fun h1 h2 => prefetch_paths_single h1 h2
  · intro h
    simp [command_jobs_purge, purge_paths_commas_whitespace h]
  · exact fun h2 h3 => purge_paths_single h2 h3

/-- Witness for C6 (amended): a commas-only prefetch argument is rejected
with exit 2, and a single path yields a one-element list. -/
theorem c6_witness :
    command_jobs_prefetch 2 [',', ','] none w0 =
      ⟨none, [.specifyAtLeastOnePath], .exits EXIT_CODE_INVALID_INPUT⟩
    ∧ prefetch_paths ['a'] = [['a']]
    ∧ command_jobs_purge 2 [' ', ','] w0 =
      ⟨none, [.specifyAtLeastOnePath], .exits EXIT_CODE_INVALID_INPUT⟩ := by
  have h1 := (c6_path_list_normalization 2 none w0 [',', ',']).1 (by decide)
  have h2 := ((c6_path_list_normalization 2 none w0 ['a']).2.1 (by decide)
    (by decide))
  have h3 := (c6_path_list_normalization 2 none w0 [' ', ',']).2.2.2.1
    (by decide)
  exact ⟨h1, h2, h3⟩

/- ------------------------------------------------------------------
Claim C7
------------------------------------------------------------------- -/

theorem parseU64_nil : parseU64 [] = none := rfl

theorem trimChars_ne_nil_of_parse {s : List Char}
    (h : (parseU64 (trimChars s)).isSome = true) : trimChars s ≠ [] := by
  intro hnil
  rw [hnil, parseU64_nil] at h
  cases h

theorem parseAllU64_filtered (segs : List (List Char))
    (h : ∀ s ∈ segs, trimChars s = [] ∨ (parseU64 (trimChars s)).isSome) :
    parseAllU64 ((segs.map trimChars).filter (· ≠ [])) =
      some (segs.filterMap (fun s => parseU64 (trimChars s))) := by
  induction segs with
  | nil => rfl
  | cons s rest ih =>
    have hrest := ih (fun x hx => h x (List.mem_cons_of_mem s hx))
    rcases h s (List.mem_cons_self s rest) with hnil | hsome
    · simp only [List.map_cons, List.filter_cons, hnil, List.filterMap_cons,
        parseU64_nil]
      simpa using hrest
    · obtain ⟨n, hn⟩ := Option.isSome_iff_exists.mp hsome
      have hne := trimChars_ne_nil_of_parse hsome
      simp only [List.map_cons, List.filter_cons, List.filterMap_cons, hn]
      rw [if_pos (by simpa using hne)]
      simp only [parseAllU64, hn, hrest]

theorem parseAllU64_bad (segs : List (List Char))
    (h : ∃ s ∈ segs, trimChars s ≠ [] ∧ parseU64 (trimChars s) = none) :
    parseAllU64 ((segs.map trimChars).filter (· ≠ [])) = none := by
  induction segs with
  | nil => simp at h
  | cons s rest ih =>
    obtain ⟨x, hx, hxne, hxnone⟩ := h
    rcases List.mem_cons.mp hx with rfl | hxrest
    · simp only [List.map_cons, List.filter_cons]
      rw [if_pos (by simpa using hxne)]
      simp only [parseAllU64, hxnone]
    · have hrest := ih ⟨x, hxrest, hxne, hxnone⟩
      simp only [List.map_cons, List.filter_cons]
      by_cases hs : trimChars s = []
      · simpa [hs] using hrest
      · rw [if_pos (by simpa using hs)]
        simp only [parseAllU64, hrest]
        cases parseU64 (trimChars s) <;> rfl

/-- C7: a resource-ID list string built from comma-free segments each of
which trims to nothing or to a valid unsigned decimal integer parses to
exactly those integers in the original order with empty segments dropped;
if some segment trims to a nonempty non-numeric string the parse is
rejected and the command aborts (the `expect` panic). -/
theorem c7_resource_id_list_parsing (segs : List (List Char))
    (hne : segs ≠ []) (hcomma : ∀ s ∈ segs, ',' ∉ s) :
    ((∀ s ∈ segs, trimChars s = [] ∨ (parseU64 (trimChars s)).isSome) →
      parse_resource_ids_optional (some (joinWithCommas segs)) =
        .ok (some (segs.filterMap (fun s => parseU64 (trimChars s)))))
    ∧ ((∃ s ∈ segs, trimChars s ≠ [] ∧ parseU64 (trimChars s) = none) →
      parse_resource_ids_optional (some (joinWithCommas segs)) =
        .error resourceIdPanicMsg) := by
  constructor
  · intro h
    simp only [parse_resource_ids_optional,
      splitOnComma_joinWithCommas segs hne hcomma, parseAllU64_filtered segs h]
  · intro h
    simp only [parse_resource_ids_optional,
      splitOnComma_joinWithCommas segs hne hcomma, parseAllU64_bad segs h]

/-- Witness for C7: the string "1, 23," parses to [1, 23]; the string "a"
aborts the parse. -/
theorem c7_witness :
    parse_resource_ids_optional (some (joinWithCommas
      [['1'], [' ', '2', '3'], []])) = .ok (some [1, 23])
    ∧ parse_resource_ids_optional (some (joinWithCommas [['a']])) =
      .error resourceIdPanicMsg := by
  constructor
  · have h := (c7_resource_id_list_parsing [['1'], [' ', '2', '3'], []]
      (by decide) (by decide)).1 (by decide)
    exact h
  · exact (c7_resource_id_list_parsing [['a']] (by decide) (by decide)).2
      (by decide)

/- ------------------------------------------------------------------
Claim C8
------------------------------------------------------------------- -/

/-- C8: date-time parsing round-trips — every `YYYY-MM-DD hh:mm` string
with in-range fields parses to the same wall-clock minute; parsing only
succeeds with in-range month/day/hour/minute (so out-of-range values are
rejected); a wrong first separator is rejected; out-of-range months and
days in otherwise well-formed strings are rejected; and a parse failure
makes `parse_date_time_or_exit` print the caller-supplied message and exit
with the invalid-input code 2. -/
theorem c8_date_time_parsing :
    (∀ y mo d h mi : Nat, 1000 ≤ y → y ≤ 9999 → 1 ≤ mo → mo ≤ 12 →
      1 ≤ d → d ≤ daysInMonth (Int.ofNat y) mo → h ≤ 23 → mi ≤ 59 →
      parse_date_time (formatDateTime y mo d h mi) =
        some ⟨Int.ofNat y, mo, d, h, mi⟩)
    ∧ (∀ (s : List Char) (dt : NaiveDateTime),
      parse_date_time s = some dt →
      1 ≤ dt.month ∧ dt.month ≤ 12 ∧ 1 ≤ dt.day
        ∧ dt.day ≤ daysInMonth dt.year dt.month ∧ dt.hour ≤ 23
        ∧ dt.minute ≤ 59)
    ∧ (∀ (y : Nat) (c : Char) (rest : List Char), y ≤ 9999 →
      c.isDigit = false → c ≠ '-' →
      parse_date_time (render4 y ++ c :: rest) = none)
    ∧ (∀ y mo d h mi : Nat, y ≤ 9999 → 13 ≤ mo → mo ≤ 99 → d ≤ 99 →
      h ≤ 99 → mi ≤ 99 →
      parse_date_time (formatDateTime y mo d h mi) = none)
    ∧ (∀ y mo d h mi : Nat, y ≤ 9999 →
      daysInMonth (Int.ofNat y) mo < d → mo ≤ 99 → d ≤ 99 → h ≤ 99 →
      mi ≤ 99 → parse_date_time (formatDateTime y mo d h mi) = none)
    ∧ (∀ (s : List Char) (msg : String), parse_date_time s = none →
      parse_date_time_or_exit s msg =
        .error ([.text msg], .exits EXIT_CODE_INVALID_INPUT)) := by
  refine ⟨?_, ?_, ?_, ?_, ?_, ?_⟩
  · intro y mo d h mi _ hy2 hmo1 hmo2 hd1 hd2 hh hmi
    exact parse_date_time_format hy2 hmo1 hmo2 hd1 hd2 hh hmi
  · intro s dt h
    exact parse_date_time_sound h
  · intro y c rest hy2 hdig hne
    exact parse_date_time_bad_sep hy2 hdig hne rest
  · intro y mo d h mi hy2 hmo hmo99 hd99 hh99 hmi99
    exact parse_date_time_bad_month hy2 hmo hmo99 hd99 hh99 hmi99
  · intro y mo d h mi hy2 hd hmo99 hd99 hh99 hmi99
    exact parse_date_time_bad_day hy2 hd hmo99 hd99 hh99 hmi99
  · intro s msg h
    simp [parse_date_time_or_exit, h]

/-- Witness for C8: the leap-day string "2024-02-29 23:59" round-trips, and
a malformed string is rejected with the invalid-input exit. -/
theorem c8_witness :
    parse_date_time (formatDateTime 2024 2 29 23 59) =
      some ⟨Int.ofNat 2024, 2, 29, 23, 59⟩
    ∧ parse_date_time_or_exit ['x'] "bad date" =
      .error ([.text "bad date"], .exits EXIT_CODE_INVALID_INPUT) := by
  obtain ⟨h1, -, -, -, -, h6⟩ := c8_date_time_parsing
  exact ⟨h1 2024 2 29 23 59 (by decide) (by decide) (by decide) (by decide)
    (by decide) (by decide) (by decide) (by decide),
    h6 ['x'] "bad date" (by decide)⟩

/- ------------------------------------------------------------------
Claim C9 (code bug: HeadersDetail renders as "headers-details" but is
parsed from "headers-detail")
------------------------------------------------------------------- -/

/-- C9 (code bug): the stat-type selector fails to round-trip at
`HeadersDetail`: its request-path rendering is "headers-details", which the
parser does not accept (it accepts "headers-detail"), so the set of
accepted CLI strings differs from the set of request-path segments; every
other variant round-trips. -/
theorem c9_stat_type_round_trip_fails :
    GetStatsType.from_str (GetStatsType.display .HeadersDetail) = none
    ∧ GetStatsType.display .HeadersDetail = "headers-details"
    ∧ GetStatsType.from_str "headers-detail" = some .HeadersDetail
    ∧ GetStatsType.from_str (GetStatsType.display .Bandwidth) =
      some .Bandwidth
    ∧ GetStatsType.from_str (GetStatsType.display .Costs) = some .Costs
    ∧ GetStatsType.from_str (GetStatsType.display .Headers) = some .Headers
    ∧ GetStatsType.from_str (GetStatsType.display .HitMiss) = some .HitMiss
    ∧ GetStatsType.from_str (GetStatsType.display .HitMissDetail) =
      some .HitMissDetail
    ∧ GetStatsType.from_str (GetStatsType.display .Traffic) = some .Traffic
    ∧ GetStatsType.from_str (GetStatsType.display .TrafficDetail) =
      some .TrafficDetail := by
  refine ⟨?_, ?_, ?_, ?_, ?_, ?_, ?_, ?_, ?_, ?_⟩ <;> rfl

end Cdn77
